import Mathlib

/-!
Verification of the simple-task-queue repository: a Postgres-backed task
queue (TaskQueue in taskQueue.ts), a task catalog (TaskRegistry in
src/types.ts), and a worker loop (TaskRunner in src/runner.ts).

The shallow embedding below models:
  * a `Task` instance as its four scalar fields (`tries`, `type`,
    `createdAt`, `priority`); methods (`run`, `nextTry`) and the
    zero-argument constructor live in a `TaskClass`, the model of the
    class object stored in the registry;
  * the JSON payload `JSON.parse(JSON.stringify(task))` as a `Payload`
    record of optional fields (a partial object, as `build` receives a
    `Partial<T>`), and `Object.assign` as field-by-field override;
  * the database table as a `List Row` following the Prisma schema
    (id, type, priority, payload, maturityAt, createdAt, updatedAt),
    timestamps as integer milliseconds;
  * `getNextBatchToProcess`'s SQL (DELETE .. WHERE id IN (SELECT id ..
    WHERE "maturityAt" < NOW() ORDER BY priority DESC, "createdAt" ASC
    LIMIT batchSize FOR UPDATE SKIP LOCKED) RETURNING *) as: filter the
    eligible rows not held by a concurrent transaction (the `locked` id
    set models SKIP LOCKED), sort by the ORDER BY key, take `batchSize`,
    and delete exactly the selected ids from the table.
-/

namespace TaskQueue

inductive TASK_STATUS where
  | SUCCESS
  | FAILURE
  | IGNORED
deriving DecidableEq, Repr

/-- Scalar state of a runtime Task instance (`tries`, `type`, `createdAt`,
`priority` in src/types.ts). -/
structure Task where
  tries : Nat
  type : String
  createdAt : Int
  priority : Int
deriving DecidableEq, Repr

/-- Model of the JSON object `JSON.parse(JSON.stringify(task))`: each own
field of the task, every one optional because `build` accepts a
`Partial<T>`. -/
structure Payload where
  tries : Option Nat
  type : Option String
  createdAt : Option Int
  priority : Option Int
deriving DecidableEq, Repr

/-- JSON serialization of a full Task instance: all four fields present.
This is the payload `addTask` stores. -/
def serialize (t : Task) : Payload :=
  { tries := some t.tries
  , type := some t.type
  , createdAt := some t.createdAt
  , priority := some t.priority }

/-- Model of `Object.assign(task, data)`: every field present in `data`
overwrites the corresponding field of `task`. -/
def objectAssign (t : Task) (d : Payload) : Task :=
  { tries := d.tries.getD t.tries
  , type := d.type.getD t.type
  , createdAt := d.createdAt.getD t.createdAt
  , priority := d.priority.getD t.priority }

/-- Model of a registered task class: the instance produced by the
zero-argument constructor (`new type()`), the `nextTry` method as a
function of the current `tries` counter, and the `run` method, whose
result is `none` when `run` raises an uncaught fault and `some status`
when it resolves to a status. -/
structure TaskClass where
  mk0 : Task
  nextTry : Nat → Int
  run : Task → Option TASK_STATUS

/-- A built task object: its scalar fields plus the class providing its
methods (in TypeScript both live in one object; here they are split so
fields stay a first-class decidable value). -/
structure TaskObj where
  cls : TaskClass
  fields : Task

/-- Model of TaskRegistry's three containers: `types` (Map name to
constructor), `frequencies` (Map name to interval), `uniqueTasks` (Set of
names). -/
structure TaskRegistry where
  types : String → Option TaskClass
  frequencies : String → Option Nat
  uniqueTasks : String → Bool

def TaskRegistry.empty : TaskRegistry :=
  { types := fun _ => none
  , frequencies := fun _ => none
  , uniqueTasks := fun _ => false }

/-- Model of `TaskRegistry.register`: `types.set` always overwrites;
`frequencies.set` runs only under `if (frequency)` (so only when a
frequency is supplied and nonzero, zero being falsy); `uniqueTasks.add`
runs only under `if (options?.unique)` and only ever adds. -/
def TaskRegistry.register (r : TaskRegistry) (typeStr : String)
    (cls : TaskClass) (frequency : Option Nat) (unique : Bool) :
    TaskRegistry :=
  { types := fun s => if s = typeStr then some cls else r.types s
  , frequencies := fun s =>
      if s = typeStr then
        match frequency with
        | some f => if f ≠ 0 then some f else r.frequencies s
        | none => r.frequencies s
      else r.frequencies s
  , uniqueTasks := fun s =>
      if s = typeStr then (unique || r.uniqueTasks s) else r.uniqueTasks s }

/-- Model of `TaskRegistry.build`: look the class up, construct the
default instance and `Object.assign` the partial payload over it; `none`
when the type name is unknown. -/
def TaskRegistry.build (r : TaskRegistry) (typeStr : String)
    (data : Payload) : Option TaskObj :=
  match r.types typeStr with
  | none => none
  | some cls => some { cls := cls, fields := objectAssign cls.mk0 data }

/-- Model of `TaskRegistry.getTimedTasks` (a copy of the frequencies map;
copying is identity in a functional model). -/
def TaskRegistry.getTimedTasks (r : TaskRegistry) : String → Option Nat :=
  r.frequencies

/-- Model of `TaskRegistry.isUnique`. -/
def TaskRegistry.isUnique (r : TaskRegistry) (type : String) : Bool :=
  r.uniqueTasks type

/-- A persisted row of the Prisma `Task` model. -/
structure Row where
  id : Nat
  type : String
  priority : Int
  payload : Payload
  maturityAt : Int
  createdAt : Int
  updatedAt : Int
deriving DecidableEq, Repr

/-- The row `prisma.task.create` writes inside `addTask`: generated id,
the task's type and priority, `maturityAt = now + delayMs`, payload the
full serialization, `createdAt`/`updatedAt` defaulting to now. -/
def newRow (task : Task) (delayMs now : Int) (freshId : Nat) : Row :=
  { id := freshId
  , type := task.type
  , priority := task.priority
  , payload := serialize task
  , maturityAt := now + delayMs
  , createdAt := now
  , updatedAt := now }

/-- Model of `TaskQueue.addTask(task, delayMs)`: when the type is unique,
`findFirst` looks for any row whose `payload.type` equals the task's type
and skips (returns null, table untouched) when one exists; otherwise a new
row is created and returned. -/
def addTask (reg : TaskRegistry) (table : List Row) (task : Task)
    (delayMs now : Int) (freshId : Nat) : Option Row × List Row :=
  if reg.isUnique task.type &&
      table.any (fun r => r.payload.type == some task.type) then
    (none, table)
  else
    (some (newRow task delayMs now freshId),
     table ++ [newRow task delayMs now freshId])

/-- The ORDER BY key of the claim query: `priority DESC, "createdAt" ASC`.
`claimOrder a b` says row `a` may come before row `b`. -/
def claimOrder (a b : Row) : Prop :=
  b.priority < a.priority ∨
    (a.priority = b.priority ∧ a.createdAt ≤ b.createdAt)

instance : DecidableRel claimOrder := fun a b => by
  unfold claimOrder
  exact inferInstance

instance : IsTotal Row claimOrder := by
  constructor
  intro a b
  unfold claimOrder
  omega

instance : IsTrans Row claimOrder := by
  constructor
  intro a b c hab hbc
  unfold claimOrder at *
  omega

/-- Model of `TaskQueue.getNextBatchToProcess(batchSize)`: inside one
transaction, select the ids of up to `batchSize` rows with
`"maturityAt" < NOW()`, ordered by priority descending then createdAt
ascending, skipping rows locked by a concurrent transaction (`locked`),
then delete exactly those rows and return them. The result is the pair
(returned rows, table after the delete commits). The next three
definitions decompose it: `eligibleRows` is the WHERE clause (maturity
reached, not locked by a concurrent transaction), `selectedRows` the
ordered LIMITed subquery, and `getNextBatchToProcess` the surrounding
DELETE .. RETURNING. -/
def eligibleRows (table : List Row) (locked : List Nat) (now : Int) :
    List Row :=
  table.filter
    (fun r => decide (r.maturityAt < now) && !(locked.contains r.id))

/-- Rows returned by the inner SELECT: eligible rows sorted by the ORDER
BY key, truncated to `batchSize`. -/
def selectedRows (table : List Row) (locked : List Nat) (now : Int)
    (batchSize : Nat) : List Row :=
  (List.insertionSort claimOrder (eligibleRows table locked now)).take
    batchSize

def getNextBatchToProcess (table : List Row) (locked : List Nat)
    (now : Int) (batchSize : Nat) : List Row × List Row :=
  (selectedRows table locked now batchSize,
   table.filter
     (fun r =>
       !((selectedRows table locked now batchSize).any
           (fun s => s.id == r.id))))

/-- Model of `TaskRunner.processTask(taskData)`: rebuild the task from the
claimed row's payload (`build(taskData.payload.type, taskData.payload)`);
unknown type reports FAILURE with no further action. Otherwise run it: a
fault thrown by `run` is caught and reported as FAILURE with no further
action; a returned FAILURE consults `nextTry()` (at the current `tries`),
and when the delay is non-negative increments `tries` and re-inserts via
`addTask` with that delay. The result is the reported status and the
table after any re-insertion. -/
def processTask (reg : TaskRegistry) (table : List Row) (taskData : Row)
    (now : Int) (freshId : Nat) : TASK_STATUS × List Row :=
  match taskData.payload.type with
  | none => (TASK_STATUS.FAILURE, table)
  | some ty =>
    match reg.build ty taskData.payload with
    | none => (TASK_STATUS.FAILURE, table)
    | some obj =>
      match obj.cls.run obj.fields with
      | none => (TASK_STATUS.FAILURE, table)
      | some result =>
        if result = TASK_STATUS.FAILURE then
          let d := obj.cls.nextTry obj.fields.tries
          if 0 ≤ d then
            (TASK_STATUS.FAILURE,
             (addTask reg table
               { obj.fields with tries := obj.fields.tries + 1 } d now
               freshId).2)
          else (TASK_STATUS.FAILURE, table)
        else (result, table)

/-! Helper lemmas about the claim query. -/

theorem mem_eligibleRows {table : List Row} {locked : List Nat}
    {now : Int} {r : Row} :
    r ∈ eligibleRows table locked now ↔
      r ∈ table ∧ r.maturityAt < now ∧ locked.contains r.id = false := by
  unfold eligibleRows
  rw [List.mem_filter]
  simp only [Bool.and_eq_true, decide_eq_true_eq, Bool.not_eq_true']

theorem mem_selectedRows {table : List Row} {locked : List Nat}
    {now : Int} {n : Nat} {r : Row}
    (h : r ∈ selectedRows table locked now n) :
    r ∈ table ∧ r.maturityAt < now ∧ locked.contains r.id = false := by
  unfold selectedRows at h
  have h1 : r ∈ List.insertionSort claimOrder (eligibleRows table locked now) :=
    List.mem_of_mem_take h
  rw [List.mem_insertionSort] at h1
  exact mem_eligibleRows.mp h1

theorem selectedRows_length_le (table : List Row) (locked : List Nat)
    (now : Int) (n : Nat) : (selectedRows table locked now n).length ≤ n := by
  unfold selectedRows
  exact List.length_take_le n _

theorem selectedRows_pairwise (table : List Row) (locked : List Nat)
    (now : Int) (n : Nat) :
    (selectedRows table locked now n).Pairwise claimOrder := by
  unfold selectedRows
  exact List.Pairwise.sublist (List.take_sublist _ _)
    (List.sorted_insertionSort claimOrder (eligibleRows table locked now))

theorem mem_remaining {table : List Row} {locked : List Nat} {now : Int}
    {n : Nat} {r : Row} :
    r ∈ (getNextBatchToProcess table locked now n).2 ↔
      r ∈ table ∧ ∀ s ∈ selectedRows table locked now n, s.id ≠ r.id := by
  unfold getNextBatchToProcess
  rw [List.mem_filter]
  simp only [Bool.not_eq_true', List.any_eq_false, beq_iff_eq]

/-! Concrete rows for the priority-ordering scenario of §8 of the spec:
priorities [10, 50, 50, 200] with mixed ages (`createdAt` 5, 9, 4, 7),
all mature. -/

def exRow10 : Row :=
  { id := 1, type := "ProcessData", priority := 10
  , payload := ⟨some 0, some "ProcessData", some 5, some 10⟩
  , maturityAt := 0, createdAt := 5, updatedAt := 5 }

def exRow50a : Row :=
  { id := 2, type := "SendEmail", priority := 50
  , payload := ⟨some 0, some "SendEmail", some 9, some 50⟩
  , maturityAt := 0, createdAt := 9, updatedAt := 9 }

def exRow50b : Row :=
  { id := 3, type := "SendEmail", priority := 50
  , payload := ⟨some 0, some "SendEmail", some 4, some 50⟩
  , maturityAt := 0, createdAt := 4, updatedAt := 4 }

def exRow200 : Row :=
  { id := 4, type := "HealthCheck", priority := 200
  , payload := ⟨some 0, some "HealthCheck", some 7, some 200⟩
  , maturityAt := 0, createdAt := 7, updatedAt := 7 }

/-- C1: for every store state and batchSize, `claimBatch` returns at most
`batchSize` rows, all drawn from the eligible pending rows, sorted by
priority descending with createdAt ascending as tie-break; and on rows
with priorities [10, 50, 50, 200] and mixed ages a claim of batch size 4
returns the priority-200 row, the two priority-50 rows by ascending
createdAt, then the priority-10 row. -/
theorem claimBatch_ordering :
    (∀ (table : List Row) (locked : List Nat) (now : Int) (n : Nat),
      (getNextBatchToProcess table locked now n).1.length ≤ n ∧
      (∀ r ∈ (getNextBatchToProcess table locked now n).1,
        r ∈ table ∧ r.maturityAt < now) ∧
      (getNextBatchToProcess table locked now n).1.Pairwise claimOrder) ∧
    getNextBatchToProcess [exRow10, exRow50a, exRow50b, exRow200] [] 100 4 =
      ([exRow200, exRow50b, exRow50a, exRow10], []) := by
  constructor
  · intro table locked now n
    refine ⟨selectedRows_length_le table locked now n, ?_,
      selectedRows_pairwise table locked now n⟩
    intro r hr
    have h := mem_selectedRows hr
    exact ⟨h.1, h.2.1⟩
  · decide

/-- Witness instantiating the universally quantified part of
`claimBatch_ordering` at a concrete store state. -/
theorem claimBatch_ordering_witness :
    (getNextBatchToProcess [exRow10, exRow50a] [] 100 1).1.length ≤ 1 ∧
      (∀ r ∈ (getNextBatchToProcess [exRow10, exRow50a] [] 100 1).1,
        r ∈ [exRow10, exRow50a] ∧ r.maturityAt < 100) ∧
      (getNextBatchToProcess [exRow10, exRow50a] [] 100 1).1.Pairwise
        claimOrder :=
  claimBatch_ordering.1 [exRow10, exRow50a] [] 100 1

/-- C2: the rows `claimBatch` returns are exactly the rows it removed
from the table, in the same transaction: every returned row was in the
table, the resulting table holds exactly the rows whose id was not
selected, and it is a sublist of the original (rows not selected are
unchanged and keep their order); the table thus continues to hold exactly
the pending rows — there is no persisted in-progress state. -/
theorem claimBatch_frame (table : List Row) (locked : List Nat)
    (now : Int) (n : Nat) :
    (∀ r ∈ (getNextBatchToProcess table locked now n).1, r ∈ table) ∧
    (∀ r, r ∈ (getNextBatchToProcess table locked now n).2 ↔
      (r ∈ table ∧
        ∀ s ∈ (getNextBatchToProcess table locked now n).1, s.id ≠ r.id)) ∧
    (getNextBatchToProcess table locked now n).2.Sublist table := by
  refine ⟨?_, ?_, ?_⟩
  · intro r hr
    exact (mem_selectedRows hr).1
  · intro r
    exact mem_remaining
  · exact List.filter_sublist table

/-- Witness instantiating `claimBatch_frame` at a concrete store state. -/
theorem claimBatch_frame_witness :
    (∀ r ∈ (getNextBatchToProcess [exRow10, exRow50a] [] 100 1).1,
      r ∈ [exRow10, exRow50a]) ∧
    (∀ r, r ∈ (getNextBatchToProcess [exRow10, exRow50a] [] 100 1).2 ↔
      (r ∈ [exRow10, exRow50a] ∧
        ∀ s ∈ (getNextBatchToProcess [exRow10, exRow50a] [] 100 1).1,
          s.id ≠ r.id)) ∧
    (getNextBatchToProcess [exRow10, exRow50a] [] 100 1).2.Sublist
      [exRow10, exRow50a] :=
  claimBatch_frame [exRow10, exRow50a] [] 100 1

/-- A pending row sitting exactly at the maturity boundary:
`maturityAt = 100`, claimed at `now = 100`. -/
def boundaryRow : Row :=
  { id := 1, type := "SendEmail", priority := 100
  , payload := ⟨some 0, some "SendEmail", some 50, some 100⟩
  , maturityAt := 100, createdAt := 50, updatedAt := 50 }

/-- C3 counterexample: the claim says a row whose `maturityAt` equals the
current time is eligible to be claimed, but the query's WHERE clause is
the strict `"maturityAt" < NOW()`: at `now = 100` a claim of batch size 1
over a table holding only `boundaryRow` (with `maturityAt = 100`) returns
no rows and leaves the row in place. -/
theorem maturity_boundary_counterexample :
    boundaryRow.maturityAt = 100 ∧
    getNextBatchToProcess [boundaryRow] [] 100 1 = ([], [boundaryRow]) := by
  decide

/-- C3 amended: a pending row is eligible for selection exactly when
`maturityAt` is strictly below the current time (with a batch large
enough to cover the whole table and no concurrent locks, a row is
returned iff `maturityAt < now`); a row whose `maturityAt` equals the
current time is not yet eligible. -/
theorem maturity_gating_strict (table : List Row) (now : Int) (r : Row)
    (h : r ∈ table) :
    r ∈ (getNextBatchToProcess table [] now table.length).1 ↔
      r.maturityAt < now := by
  constructor
  · intro hr
    exact (mem_selectedRows hr).2.1
  · intro hlt
    show r ∈ selectedRows table [] now table.length
    unfold selectedRows
    have hle :
        (List.insertionSort claimOrder (eligibleRows table [] now)).length ≤
          table.length := by
      rw [List.length_insertionSort]
      exact List.length_filter_le _ table
    rw [List.take_of_length_le hle, List.mem_insertionSort,
      mem_eligibleRows]
    exact ⟨h, hlt, rfl⟩

/-- Witness for `maturity_gating_strict`: a strictly mature row in a
one-row table is claimed. -/
theorem maturity_gating_strict_witness :
    boundaryRow ∈ [boundaryRow] ∧
      (boundaryRow ∈ (getNextBatchToProcess [boundaryRow] [] 200
          [boundaryRow].length).1 ↔
        boundaryRow.maturityAt < 200) :=
  ⟨by decide, maturity_gating_strict [boundaryRow] 200 boundaryRow
    (by decide)⟩

/-- C4: two concurrent `claimBatch` calls over the same store state. The
first call's transaction holds row locks on its selection; `FOR UPDATE
SKIP LOCKED` makes the second call skip exactly those rows instead of
waiting on them, so the second call still returns (a total function over
the rows the first does not hold) and the two returned sets are disjoint:
every row of the second result is a table row whose id differs from every
row of the first result. -/
theorem concurrent_claims_disjoint (table : List Row) (now : Int)
    (n1 n2 : Nat) :
    ∀ r2 ∈ (getNextBatchToProcess table
        ((getNextBatchToProcess table [] now n1).1.map Row.id) now n2).1,
      r2 ∈ table ∧
        ∀ r1 ∈ (getNextBatchToProcess table [] now n1).1,
          r2.id ≠ r1.id := by
  intro r2 h2
  have h := mem_selectedRows h2
  refine ⟨h.1, ?_⟩
  intro r1 h1 heq
  have hnot : r2.id ∉ (getNextBatchToProcess table [] now n1).1.map Row.id := by
    simpa using h.2.2
  exact hnot (heq ▸ List.mem_map_of_mem Row.id h1)

/-- Witness instantiating `concurrent_claims_disjoint` at a two-row
store with two batch-1 claimants: the first claim takes the priority-50
row, the second (skipping it as locked) takes the priority-10 row, and
their ids differ. -/
theorem concurrent_claims_disjoint_witness :
    exRow10 ∈ [exRow10, exRow50a] ∧ exRow10.id ≠ exRow50a.id :=
  ⟨(concurrent_claims_disjoint [exRow10, exRow50a] 100 1 1 exRow10
      (by decide)).1,
   (concurrent_claims_disjoint [exRow10, exRow50a] 100 1 1 exRow10
      (by decide)).2 exRow50a (by decide)⟩

/-! Model of the task classes registered in src/tasks.ts (construction
time `Date.now()` is taken as 0 in the zero-argument constructors; the
value is overwritten by `Object.assign` whenever a claimed payload is
rebuilt). `run` bodies only sleep and return SUCCESS, except HealthCheck
whose outcome is random; the classes below are the deterministic ones. -/

def sendEmailClass : TaskClass :=
  { mk0 := ⟨0, "SendEmail", 0, 100⟩
  , nextTry := fun _ => -1
  , run := fun _ => some TASK_STATUS.SUCCESS }

def processDataClass : TaskClass :=
  { mk0 := ⟨0, "ProcessData", 0, 100⟩
  , nextTry := fun _ => -1
  , run := fun _ => some TASK_STATUS.SUCCESS }

def dailyReportClass : TaskClass :=
  { mk0 := ⟨0, "DailyReport", 0, 100⟩
  , nextTry := fun _ => -1
  , run := fun _ => some TASK_STATUS.SUCCESS }

/-- The registry after the `RegisterTask` decorators of src/tasks.ts run
for the three deterministic classes: DailyReport recurs daily and is
unique; the others have no interval and are not unique. -/
def regAll : TaskRegistry :=
  ((TaskRegistry.empty.register "SendEmail" sendEmailClass none
      false).register "ProcessData" processDataClass none
      false).register "DailyReport" dailyReportClass (some 86400000) true

def dailyTask : Task := ⟨0, "DailyReport", 0, 100⟩

/-- C5: for a task whose type is registered unique, `addTask` is a
skipped no-op exactly when a pending row of that type already exists, and
otherwise creates and returns a new record appended to the table. The
well-formedness hypothesis says every pending row's payload carries the
row's own type, which is true of every row `addTask` itself creates
(`newRow` stores the full serialization), and makes the code's
`findFirst` on `payload.type` agree with "a pending row of that type". -/
theorem addTask_unique (reg : TaskRegistry) (table : List Row)
    (task : Task) (delayMs now : Int) (freshId : Nat)
    (hu : reg.isUnique task.type = true)
    (hwf : ∀ r ∈ table, r.payload.type = some r.type) :
    ((∃ r ∈ table, r.type = task.type) →
      addTask reg table task delayMs now freshId = (none, table)) ∧
    ((∀ r ∈ table, r.type ≠ task.type) →
      addTask reg table task delayMs now freshId =
        (some (newRow task delayMs now freshId),
         table ++ [newRow task delayMs now freshId])) := by
  constructor
  · rintro ⟨r, hr, hty⟩
    have hany :
        table.any (fun row => row.payload.type == some task.type) = true := by
      rw [List.any_eq_true]
      exact ⟨r, hr, by simp [hwf r hr, hty]⟩
    simp [addTask, hu, hany]
  · intro hall
    have hany :
        table.any (fun row => row.payload.type == some task.type) = false := by
      rw [List.any_eq_false]
      intro r hr
      simp only [hwf r hr, beq_iff_eq, Option.some.injEq]
      exact hall r hr
    simp [addTask, hany]

/-- Witness for `addTask_unique`: the unique DailyReport type inserted
into an empty table. -/
theorem addTask_unique_witness :
    ((∃ r ∈ ([] : List Row), r.type = dailyTask.type) →
      addTask regAll [] dailyTask 0 5 1 = (none, [])) ∧
    ((∀ r ∈ ([] : List Row), r.type ≠ dailyTask.type) →
      addTask regAll [] dailyTask 0 5 1 =
        (some (newRow dailyTask 0 5 1), [] ++ [newRow dailyTask 0 5 1])) :=
  addTask_unique regAll [] dailyTask 0 5 1 (by decide) (by decide)

/-! Retry escalation scenario (C6): a task carrying HealthCheck's retry
policy (`tries < 3 ? 60000 : -1`, src/tasks.ts) whose `run` always
returns FAILURE, driven through repeated claim-and-process cycles of the
runner loop (claim batch of 5, then process each claimed row). -/

def failingHealthCheckClass : TaskClass :=
  { mk0 := ⟨0, "HealthCheck", 0, 200⟩
  , nextTry := fun tries => if tries < 3 then 60000 else -1
  , run := fun _ => some TASK_STATUS.FAILURE }

def hcRegistry : TaskRegistry :=
  TaskRegistry.empty.register "HealthCheck" failingHealthCheckClass
    (some 5000) true

/-- One iteration of the runner loop's non-empty branch: claim a batch of
5 and process every claimed row against the remaining table (runner.ts
`start`). Returns the table after the batch is drained. -/
def cycleStep (reg : TaskRegistry) (table : List Row) (now : Int)
    (freshId : Nat) : List Row :=
  (getNextBatchToProcess table [] now 5).1.foldl
    (fun tb row => (processTask reg tb row now freshId).2)
    (getNextBatchToProcess table [] now 5).2

def hcRow0 : Row :=
  { id := 0, type := "HealthCheck", priority := 200
  , payload := ⟨some 0, some "HealthCheck", some 0, some 200⟩
  , maturityAt := 0, createdAt := 0, updatedAt := 0 }

def hcRow1 : Row :=
  { id := 1, type := "HealthCheck", priority := 200
  , payload := ⟨some 1, some "HealthCheck", some 0, some 200⟩
  , maturityAt := 60001, createdAt := 1, updatedAt := 1 }

def hcRow2 : Row :=
  { id := 2, type := "HealthCheck", priority := 200
  , payload := ⟨some 2, some "HealthCheck", some 0, some 200⟩
  , maturityAt := 130000, createdAt := 70000, updatedAt := 70000 }

def hcRow3 : Row :=
  { id := 3, type := "HealthCheck", priority := 200
  , payload := ⟨some 3, some "HealthCheck", some 0, some 200⟩
  , maturityAt := 260000, createdAt := 200000, updatedAt := 200000 }

/-- C6: starting from the pending row of an always-failing task with
HealthCheck's retry policy (`tries` 0 in its payload), successive
claim-and-process cycles produce exactly three re-insertions, whose
payloads carry `tries` 1, 2 and 3 and whose `maturityAt` sits 60000 ms
after the insertion time; the cycle that claims the `tries = 3` row
inserts nothing, leaving the store empty. -/
theorem retry_escalation_trace :
    cycleStep hcRegistry [hcRow0] 1 1 = [hcRow1] ∧
    hcRow1.payload.tries = some 1 ∧ hcRow1.maturityAt = 1 + 60000 ∧
    cycleStep hcRegistry [hcRow1] 70000 2 = [hcRow2] ∧
    hcRow2.payload.tries = some 2 ∧ hcRow2.maturityAt = 70000 + 60000 ∧
    cycleStep hcRegistry [hcRow2] 200000 3 = [hcRow3] ∧
    hcRow3.payload.tries = some 3 ∧ hcRow3.maturityAt = 200000 + 60000 ∧
    cycleStep hcRegistry [hcRow3] 300000 4 = [] := by
  decide

/-! Uncaught-fault scenario (C7): a registered class whose `run` raises
(modeled as `run` returning `none`) while its retry policy always offers
a 60000 ms delay. -/

def throwingClass : TaskClass :=
  { mk0 := ⟨0, "Flaky", 0, 100⟩
  , nextTry := fun _ => 60000
  , run := fun _ => none }

def throwReg : TaskRegistry :=
  TaskRegistry.empty.register "Flaky" throwingClass none false

def flakyRow : Row :=
  { id := 7, type := "Flaky", priority := 100
  , payload := ⟨some 0, some "Flaky", some 0, some 100⟩
  , maturityAt := 0, createdAt := 0, updatedAt := 0 }

/-- C7 counterexample: for the claimed `flakyRow` of the registered
`Flaky` type, `run` raises and `nextTry` is 60000 ≥ 0, so by the claim a
new row would be re-inserted; but `processTask`'s catch block only
reports FAILURE, and the table stays empty — no retry insertion. -/
theorem fault_no_retry_counterexample :
    throwingClass.run (objectAssign throwingClass.mk0 flakyRow.payload)
      = none ∧
    (0 : Int) ≤ throwingClass.nextTry 0 ∧
    processTask throwReg [] flakyRow 0 8 = (TASK_STATUS.FAILURE, []) := by
  decide

/-- C7 amended: when `run` raises an uncaught fault, `processTask`
catches it, reports FAILURE and does not propagate it — but the retry
policy is not consulted: no row is re-inserted and the table is returned
unchanged (retry happens only for a returned FAILURE status). -/
theorem fault_returns_failure_no_retry (reg : TaskRegistry)
    (table : List Row) (taskData : Row) (now : Int) (freshId : Nat)
    (ty : String) (obj : TaskObj)
    (hty : taskData.payload.type = some ty)
    (hb : reg.build ty taskData.payload = some obj)
    (hrun : obj.cls.run obj.fields = none) :
    processTask reg table taskData now freshId =
      (TASK_STATUS.FAILURE, table) := by
  simp only [processTask, hty, hb, hrun]

/-- Witness for `fault_returns_failure_no_retry` at the `Flaky` class. -/
theorem fault_returns_failure_no_retry_witness :
    processTask throwReg [flakyRow] flakyRow 5 9 =
      (TASK_STATUS.FAILURE, [flakyRow]) :=
  fault_returns_failure_no_retry throwReg [flakyRow] flakyRow 5 9 "Flaky"
    ⟨throwingClass, ⟨0, "Flaky", 0, 100⟩⟩ rfl rfl rfl

/-! Double-registration scenario (C8): the same type name registered
twice, first with an interval and the unique flag, then with neither. -/

def reportClassV1 : TaskClass :=
  { mk0 := ⟨0, "Report", 0, 100⟩
  , nextTry := fun _ => -1
  , run := fun _ => some TASK_STATUS.SUCCESS }

def reportClassV2 : TaskClass :=
  { mk0 := ⟨0, "Report", 0, 50⟩
  , nextTry := fun _ => -1
  , run := fun _ => some TASK_STATUS.IGNORED }

def regTwice : TaskRegistry :=
  (TaskRegistry.empty.register "Report" reportClassV1 (some 5000)
      true).register "Report" reportClassV2 none false

/-- C8 counterexample: after registering "Report" with interval 5000 and
`unique`, a second registration of "Report" with no interval and no
options does not make the catalog reflect only the last registration:
`getTimedTasks` still maps "Report" to 5000 instead of omitting it, and
`isUnique "Report"` is still true although the second registration did
not set `unique`. -/
theorem register_last_wins_counterexample :
    regTwice.getTimedTasks "Report" = some 5000 ∧
    ¬ regTwice.getTimedTasks "Report" = none ∧
    regTwice.isUnique "Report" = true := by
  decide

/-- C8 amended: after two registrations of the same type name only the
constructor is last-wins (`build` constructs via the second class); the
recurrence interval is overwritten only when the second registration
supplies a nonzero one (`if (frequency)` guards the map write, zero being
falsy) and otherwise the earlier interval persists; and uniqueness only
accumulates — the type stays unique if either registration set the flag,
a later registration never clears it. -/
theorem register_accumulates (reg : TaskRegistry) (ty : String)
    (c1 c2 : TaskClass) (f1 f2 : Option Nat) (u1 u2 : Bool) :
    ((reg.register ty c1 f1 u1).register ty c2 f2 u2).types ty = some c2 ∧
    (∀ f, f2 = some f → f ≠ 0 →
      ((reg.register ty c1 f1 u1).register ty c2 f2 u2).frequencies ty =
        some f) ∧
    ((f2 = none ∨ f2 = some 0) →
      ((reg.register ty c1 f1 u1).register ty c2 f2 u2).frequencies ty =
        (reg.register ty c1 f1 u1).frequencies ty) ∧
    ((reg.register ty c1 f1 u1).register ty c2 f2 u2).uniqueTasks ty =
      (u2 || (reg.register ty c1 f1 u1).uniqueTasks ty) := by
  refine ⟨?_, ?_, ?_, ?_⟩
  · simp [TaskRegistry.register]
  · rintro f rfl hf
    simp [TaskRegistry.register, hf]
  · rintro (rfl | rfl) <;> simp [TaskRegistry.register]
  · simp [TaskRegistry.register]

/-- Witness for `register_accumulates` at the concrete double
registration of "Report". -/
theorem register_accumulates_witness :
    regTwice.types "Report" = some reportClassV2 ∧
    (∀ f, (none : Option Nat) = some f → f ≠ 0 →
      regTwice.frequencies "Report" = some f) ∧
    (((none : Option Nat) = none ∨ (none : Option Nat) = some 0) →
      regTwice.frequencies "Report" =
        (TaskRegistry.empty.register "Report" reportClassV1 (some 5000)
            true).frequencies "Report") ∧
    regTwice.uniqueTasks "Report" =
      (false || (TaskRegistry.empty.register "Report" reportClassV1
          (some 5000) true).uniqueTasks "Report") :=
  register_accumulates TaskRegistry.empty "Report" reportClassV1
    reportClassV2 (some 5000) none true false

/-! Unknown-type scenario (C9): a claimed row whose payload type has no
registration. -/

def unknownRow : Row :=
  { id := 9, type := "Mystery", priority := 100
  , payload := ⟨some 0, some "Mystery", some 0, some 100⟩
  , maturityAt := 0, createdAt := 0, updatedAt := 0 }

/-- C9: for a claimed row whose payload type is not registered, `build`
returns none, so `processTask` reports FAILURE without raising and
performs no retry insertion: the table is returned unchanged. -/
theorem processTask_unknown_type (reg : TaskRegistry) (table : List Row)
    (taskData : Row) (now : Int) (freshId : Nat) (ty : String)
    (hty : taskData.payload.type = some ty)
    (hunknown : reg.types ty = none) :
    reg.build ty taskData.payload = none ∧
    processTask reg table taskData now freshId =
      (TASK_STATUS.FAILURE, table) := by
  have hb : reg.build ty taskData.payload = none := by
    unfold TaskRegistry.build
    rw [hunknown]
  refine ⟨hb, ?_⟩
  simp only [processTask, hty, hb]

/-- Witness for `processTask_unknown_type`: an empty registry cannot
build the "Mystery" row. -/
theorem processTask_unknown_type_witness :
    TaskRegistry.empty.build "Mystery" unknownRow.payload = none ∧
    processTask TaskRegistry.empty [unknownRow] unknownRow 0 1 =
      (TASK_STATUS.FAILURE, [unknownRow]) :=
  processTask_unknown_type TaskRegistry.empty [unknownRow] unknownRow 0 1
    "Mystery" rfl rfl

/-- C10: serialization round-trip. For every task instance of a
registered type, rebuilding it from the payload `addTask` would store
(`build(t.type, serialize(t))`, where `serialize` is the JSON round-trip
`JSON.parse(JSON.stringify(task))`) succeeds and restores `type`,
`priority`, `tries` and `createdAt` exactly, because the stored payload
carries every field and `Object.assign` copies each one over the freshly
constructed instance. -/
theorem build_serialize_roundtrip (reg : TaskRegistry) (t : Task)
    (cls : TaskClass) (hreg : reg.types t.type = some cls) :
    ∃ obj, reg.build t.type (serialize t) = some obj ∧
      obj.fields.type = t.type ∧ obj.fields.priority = t.priority ∧
      obj.fields.tries = t.tries ∧ obj.fields.createdAt = t.createdAt := by
  refine ⟨⟨cls, objectAssign cls.mk0 (serialize t)⟩, ?_, ?_, ?_, ?_, ?_⟩
  · unfold TaskRegistry.build
    rw [hreg]
  all_goals simp [objectAssign, serialize]

/-- Witness for `build_serialize_roundtrip`: the DailyReport instance
survives the round-trip through its stored payload. -/
theorem build_serialize_roundtrip_witness :
    ∃ obj, regAll.build dailyTask.type (serialize dailyTask) = some obj ∧
      obj.fields.type = dailyTask.type ∧
      obj.fields.priority = dailyTask.priority ∧
      obj.fields.tries = dailyTask.tries ∧
      obj.fields.createdAt = dailyTask.createdAt :=
  build_serialize_roundtrip regAll dailyTask dailyReportClass rfl

end TaskQueue
